import Mathlib

/-!
Shallow embedding of `src/streamlit_app.py` ("The Health Line", a
Streamlit + SQLite queue/booking app) and proofs about its operations.

Modelling conventions:
* SQLite tables become Lean lists of records; `AUTOINCREMENT` ids become
  explicit `next...Id` counters starting at 1.
* Appointment timestamps are stored by the program as ISO-8601 text and
  compared/ordered as text; for a fixed format, lexicographic order on such
  strings coincides with chronological order, so timestamps (and dates, for
  prescriptions) are modelled as naturals.
* Python `str.strip()` is modelled by `pyStrip`, `char.isdigit` by
  `Char.isDigit` (they agree on ASCII, which is all the program relies on).
* `hashlib.sha256(password.encode()).hexdigest()` is modelled by a full
  executable SHA-256 over the UTF-8 bytes of the password, producing the
  lowercase hex digest.
-/

/-- Arithmetic is over 32-bit words represented as naturals below `2 ^ 32`. -/
def M32 : Nat := 4294967296

/-- Right rotation of a 32-bit word by `n` bits. -/
def rotr32 (n x : Nat) : Nat := (x / 2 ^ n + x % 2 ^ n * 2 ^ (32 - n)) % M32

/-- Bitwise complement of a 32-bit word. -/
def not32 (x : Nat) : Nat := x ^^^ (M32 - 1)

/-- SHA-256 small sigma-0: rotr 7 xor rotr 18 xor shr 3. -/
def smallSigma0 (w : Nat) : Nat := rotr32 7 w ^^^ rotr32 18 w ^^^ w / 2 ^ 3

/-- SHA-256 small sigma-1: rotr 17 xor rotr 19 xor shr 10. -/
def smallSigma1 (w : Nat) : Nat := rotr32 17 w ^^^ rotr32 19 w ^^^ w / 2 ^ 10

/-- SHA-256 big Sigma-0. -/
def bigSigma0 (a : Nat) : Nat := rotr32 2 a ^^^ rotr32 13 a ^^^ rotr32 22 a

/-- SHA-256 big Sigma-1. -/
def bigSigma1 (e : Nat) : Nat := rotr32 6 e ^^^ rotr32 11 e ^^^ rotr32 25 e

/-- SHA-256 choice function. -/
def sha256Ch (e f g : Nat) : Nat := (e &&& f) ^^^ (not32 e &&& g)

/-- SHA-256 majority function. -/
def sha256Maj (a b c : Nat) : Nat := (a &&& b) ^^^ (a &&& c) ^^^ (b &&& c)

/-- The 64 SHA-256 round constants. -/
def sha256K : List Nat :=
  [1116352408, 1899447441, 3049323471, 3921009573,
   961987163, 1508970993, 2453635748, 2870763221,
   3624381080, 310598401, 607225278, 1426881987,
   1925078388, 2162078206, 2614888103, 3248222580,
   3835390401, 4022224774, 264347078, 604807628,
   770255983, 1249150122, 1555081692, 1996064986,
   2554220882, 2821834349, 2952996808, 3210313671,
   3336571891, 3584528711, 113926993, 338241895,
   666307205, 773529912, 1294757372, 1396182291,
   1695183700, 1986661051, 2177026350, 2456956037,
   2730485921, 2820302411, 3259730800, 3345764771,
   3516065817, 3600352804, 4094571909, 275423344,
   430227734, 506948616, 659060556, 883997877,
   958139571, 1322822218, 1537002063, 1747873779,
   1955562222, 2024104815, 2227730452, 2361852424,
   2428436474, 2756734187, 3204031479, 3329325298]

/-- The SHA-256 initial hash value, as the list `[h0, ..., h7]`. -/
def sha256H0 : List Nat :=
  [1779033703, 3144134277, 1013904242, 2773480762,
   1359893119, 2600822924, 528734635, 1541459225]

/-- UTF-8 encoding of one character, as Python `str.encode()` produces it. -/
def utf8Bytes (c : Char) : List Nat :=
  let n := c.toNat
  if n < 128 then [n]
  else if n < 2048 then [192 + n / 64, 128 + n % 64]
  else if n < 65536 then [224 + n / 4096, 128 + n / 64 % 64, 128 + n % 64]
  else [240 + n / 262144, 128 + n / 4096 % 64, 128 + n / 64 % 64, 128 + n % 64]

/-- UTF-8 bytes of a string (the model of Python `password.encode()`). -/
def strBytes (s : String) : List Nat := (s.toList.map utf8Bytes).foldr (· ++ ·) []

/-- Big-endian 8-byte encoding of the 64-bit message length in bits. -/
def lenBytes64 (ml : Nat) : List Nat :=
  [ml / 2 ^ 56 % 256, ml / 2 ^ 48 % 256, ml / 2 ^ 40 % 256, ml / 2 ^ 32 % 256,
   ml / 2 ^ 24 % 256, ml / 2 ^ 16 % 256, ml / 2 ^ 8 % 256, ml % 256]

/-- SHA-256 padding: append `0x80`, zero bytes to 56 mod 64, then the length. -/
def padMessage (msg : List Nat) : List Nat :=
  let k := (120 - (msg.length + 1) % 64) % 64
  msg ++ [128] ++ List.replicate k 0 ++ lenBytes64 (msg.length * 8)

/-- Split a byte list into 64-byte chunks; the fuel bounds the recursion depth
and is structurally consumed so that the kernel can evaluate the function. -/
def chunks64Aux : Nat → List Nat → List (List Nat)
  | 0, _ => []
  | fuel + 1, l => if l.isEmpty then [] else l.take 64 :: chunks64Aux fuel (l.drop 64)

/-- Split a byte list into 64-byte chunks. -/
def chunks64 (l : List Nat) : List (List Nat) := chunks64Aux l.length l

/-- Group bytes into big-endian 32-bit words. -/
def bytesToWords : List Nat → List Nat
  | b0 :: b1 :: b2 :: b3 :: rest => (((b0 * 256 + b1) * 256 + b2) * 256 + b3) :: bytesToWords rest
  | _ => []

/-- Extend the 16 message-schedule words, `k` more words to go. -/
def extendWords : Nat → List Nat → List Nat
  | 0, w => w
  | k + 1, w =>
    let i := w.length
    let nw := (w.getD (i - 16) 0 + smallSigma0 (w.getD (i - 15) 0) +
               w.getD (i - 7) 0 + smallSigma1 (w.getD (i - 2) 0)) % M32
    extendWords k (w ++ [nw])

/-- Working state of the SHA-256 compression loop. -/
structure Hash8 where
  a : Nat
  b : Nat
  c : Nat
  d : Nat
  e : Nat
  f : Nat
  g : Nat
  h : Nat
deriving Repr, DecidableEq

/-- One round of the SHA-256 compression loop. -/
def compressStep (s : Hash8) (kw : Nat × Nat) : Hash8 :=
  let t1 := (s.h + bigSigma1 s.e + sha256Ch s.e s.f s.g + kw.1 + kw.2) % M32
  let t2 := (bigSigma0 s.a + sha256Maj s.a s.b s.c) % M32
  ⟨(t1 + t2) % M32, s.a, s.b, s.c, (s.d + t1) % M32, s.e, s.f, s.g⟩

/-- Process one 64-byte chunk, updating the running hash words. -/
def processChunk (hw : List Nat) (chunk : List Nat) : List Nat :=
  let w := extendWords 48 (bytesToWords chunk)
  let s0 : Hash8 := ⟨hw.getD 0 0, hw.getD 1 0, hw.getD 2 0, hw.getD 3 0,
                     hw.getD 4 0, hw.getD 5 0, hw.getD 6 0, hw.getD 7 0⟩
  let s := (sha256K.zip w).foldl compressStep s0
  [(hw.getD 0 0 + s.a) % M32, (hw.getD 1 0 + s.b) % M32, (hw.getD 2 0 + s.c) % M32,
   (hw.getD 3 0 + s.d) % M32, (hw.getD 4 0 + s.e) % M32, (hw.getD 5 0 + s.f) % M32,
   (hw.getD 6 0 + s.g) % M32, (hw.getD 7 0 + s.h) % M32]

/-- The eight 32-bit hash words of the SHA-256 digest of a byte string. -/
def sha256Words (msg : List Nat) : List Nat :=
  (chunks64 (padMessage msg)).foldl processChunk sha256H0

/-- Lowercase hexadecimal digit character. -/
def hexDigitChar (n : Nat) : Char := if n < 10 then Char.ofNat (48 + n) else Char.ofNat (87 + n)

/-- Eight-character lowercase hex rendering of a 32-bit word. -/
def wordHex (w : Nat) : List Char :=
  [hexDigitChar (w / 2 ^ 28 % 16), hexDigitChar (w / 2 ^ 24 % 16),
   hexDigitChar (w / 2 ^ 20 % 16), hexDigitChar (w / 2 ^ 16 % 16),
   hexDigitChar (w / 2 ^ 12 % 16), hexDigitChar (w / 2 ^ 8 % 16),
   hexDigitChar (w / 2 ^ 4 % 16), hexDigitChar (w % 16)]

/-- Model of `hash_password` (line 96): SHA-256 hex digest of the password. -/
def hash_password (password : String) : String :=
  String.mk ((sha256Words (strBytes password)).foldr (fun w acc => wordHex w ++ acc) [])

/-- Model of `check_password` (line 99): rehash and compare with the stored digest. -/
def check_password (password hashed : String) : Bool :=
  hash_password password == hashed

/-- Characters removed by Python `str.strip()` with no argument (ASCII
whitespace). -/
def isPySpace (c : Char) : Bool :=
  c == ' ' || c == '\t' || c == '\n' || c == '\r' || c == '\x0b' || c == '\x0c'

/-- Model of Python `str.strip()`: drop leading and trailing whitespace. -/
def pyStrip (s : String) : String :=
  String.mk (((s.toList.dropWhile isPySpace).reverse.dropWhile isPySpace).reverse)

/-- Model of `password_policy` (line 102).  The Python special-character
string literal is reproduced here by character code:
! @ # $ % ^ & * ( ) - _ = + [ left-brace ] right-brace backslash vertical-bar
; : single-quote double-quote , < . > / ? backtick ~ . -/
def specialChars : List Char :=
  [33, 64, 35, 36, 37, 94, 38, 42, 40, 41, 45, 95, 61, 43, 91, 123, 93, 125,
   92, 124, 59, 58, 39, 34, 44, 60, 46, 62, 47, 63, 96, 126].map Char.ofNat

/-- Model of `password_policy` (line 102): at least six characters, at least
one digit, and at least one special character. -/
def password_policy (password : String) : Bool :=
  decide (password.length ≥ 6) &&
  password.toList.any Char.isDigit &&
  password.toList.any (fun ch => specialChars.contains ch)

/-- Row of the `patients` table (line 47). -/
structure Patient where
  id : Nat
  full_name : String
  dob : String
  id_number : String
  language : String
  password_hash : String
deriving Repr, DecidableEq

/-- Row of the `doctors` table (line 56). -/
structure Doctor where
  id : Nat
  first_name : String
  surname : String
  place_of_work : String
  practice_number : String
  password_hash : String
deriving Repr, DecidableEq

/-- Row of the `appointments` table (line 65); `time` is the ISO timestamp
modelled as a natural number, `status` the status text. -/
structure Appointment where
  id : Nat
  patient_id : Nat
  doctor_id : Nat
  time : Nat
  status : String
deriving Repr, DecidableEq

/-- Row of the `prescriptions` table (line 73); dates modelled as day numbers. -/
structure Prescription where
  id : Nat
  patient_id : Nat
  doctor_id : Nat
  medication : String
  prescribed_on : Nat
  refill_due : Nat
deriving Repr, DecidableEq

/-- The SQLite store `queue_system.db`: one list per table, plus the
`AUTOINCREMENT` counters (SQLite row ids start at 1). -/
structure DB where
  patients : List Patient
  doctors : List Doctor
  appointments : List Appointment
  prescriptions : List Prescription
  nextPatientId : Nat
  nextDoctorId : Nat
  nextAppointmentId : Nat
  nextPrescriptionId : Nat
deriving Repr, DecidableEq

/-- The store right after `create_tables` (line 46): empty tables. -/
def emptyDB : DB := ⟨[], [], [], [], 1, 1, 1, 1⟩

/-- Outcome of a registration attempt, mirroring the branches of
`patient_register` (line 121) and `doctor_register` (line 169):
missing fields, bad practice number, failed password policy, SQLite
`IntegrityError` from a UNIQUE violation, or success. -/
inductive RegResult where
  | ok
  | missingFields
  | badPracticeNumber
  | badPassword
  | integrityError
deriving Repr, DecidableEq

/-- Model of `patient_register` (line 121): require non-blank name, ID number
and password, enforce the password policy, then insert; the UNIQUE constraint
on `id_number` (line 51) makes a duplicate insert raise `IntegrityError`,
which the page reports without inserting. -/
def patient_register (db : DB) (name dob id_number language password : String) :
    DB × RegResult :=
  if (pyStrip name) = "" ∨ (pyStrip id_number) = "" ∨ (pyStrip password) = "" then (db, .missingFields)
  else if ¬ password_policy password then (db, .badPassword)
  else if db.patients.any (fun p => p.id_number == (pyStrip id_number)) then (db, .integrityError)
  else
    ({ db with
        patients := db.patients ++
          [⟨db.nextPatientId, (pyStrip name), dob, (pyStrip id_number), language,
            hash_password password⟩],
        nextPatientId := db.nextPatientId + 1 },
     .ok)

/-- Model of `patient_login` (line 150): on non-blank inputs, fetch the row
with the given ID number and check the password hash; returns the session
data `(user_id, user_name)` on success and `none` on failure. -/
def patient_login (db : DB) (id_number password : String) : Option (Nat × String) :=
  if (pyStrip id_number) = "" ∨ (pyStrip password) = "" then none
  else
    match db.patients.find? (fun p => p.id_number == (pyStrip id_number)) with
    | none => none
    | some p => if check_password password p.password_hash then some (p.id, p.full_name) else none

/-- Model of `doctor_register` (line 169): non-blank fields, a 13-digit
practice number, the password policy, then insert with `practice_number`
UNIQUE (line 61). -/
def doctor_register (db : DB) (first_name surname work practice password : String) :
    DB × RegResult :=
  if (pyStrip first_name) = "" ∨ (pyStrip surname) = "" ∨ (pyStrip work) = "" ∨ (pyStrip practice) = "" ∨
      (pyStrip password) = "" then (db, .missingFields)
  else if (pyStrip practice).length ≠ 13 ∨ ¬ (pyStrip practice).toList.all Char.isDigit then
    (db, .badPracticeNumber)
  else if ¬ password_policy password then (db, .badPassword)
  else if db.doctors.any (fun d => d.practice_number == (pyStrip practice)) then (db, .integrityError)
  else
    ({ db with
        doctors := db.doctors ++
          [⟨db.nextDoctorId, pyStrip first_name, pyStrip surname, pyStrip work, pyStrip practice,
            hash_password password⟩],
        nextDoctorId := db.nextDoctorId + 1 },
     .ok)

/-- Model of the booking insert of `patient_dashboard` (lines 236 to 246):
one unconditional `INSERT INTO appointments` with status `Scheduled`.  The
code performs no availability, overlap, or working-hours check of any kind. -/
def bookAppointment (db : DB) (patient_id doctor_id : Nat) (time : Nat) : DB :=
  { db with
      appointments := db.appointments ++
        [⟨db.nextAppointmentId, patient_id, doctor_id, time, "Scheduled"⟩],
      nextAppointmentId := db.nextAppointmentId + 1 }

/-- Model of the account deletion in `doctor_dashboard` (line 322):
`DELETE FROM doctors WHERE id=?`, touching no other table. -/
def delete_doctor (db : DB) (doctor_id : Nat) : DB :=
  { db with doctors := db.doctors.filter (fun d => ! (d.id == doctor_id)) }

/-- Result row of the patient's appointment listing (lines 250 to 256):
`SELECT a.time, d.first_name, d.surname`. -/
structure PatientApptRow where
  time : Nat
  first_name : String
  surname : String
deriving Repr, DecidableEq

/-- Result row of the doctor's appointment listing (lines 281 to 288):
`SELECT a.id, p.id, p.full_name, a.time`. -/
structure DoctorApptRow where
  appointment_id : Nat
  patient_id : Nat
  full_name : String
  time : Nat
deriving Repr, DecidableEq

/-- Descending order on patient listing rows, the model of `ORDER BY a.time
DESC` (line 255). -/
def timeDescP (a b : PatientApptRow) : Prop := b.time ≤ a.time

instance : DecidableRel timeDescP := fun a b => Nat.decLe b.time a.time

instance : IsTotal PatientApptRow timeDescP :=
  ⟨fun a b => (Nat.le_total a.time b.time).symm⟩

instance : IsTrans PatientApptRow timeDescP :=
  ⟨fun _ _ _ hab hbc => Nat.le_trans hbc hab⟩

/-- Descending order on doctor listing rows, the model of `ORDER BY a.time
DESC` (line 287). -/
def timeDescD (a b : DoctorApptRow) : Prop := b.time ≤ a.time

instance : DecidableRel timeDescD := fun a b => Nat.decLe b.time a.time

instance : IsTotal DoctorApptRow timeDescD :=
  ⟨fun a b => (Nat.le_total a.time b.time).symm⟩

instance : IsTrans DoctorApptRow timeDescD :=
  ⟨fun _ _ _ hab hbc => Nat.le_trans hbc hab⟩

/-- Model of the patient's appointment listing (lines 250 to 256): the inner
join of the patient's appointments with `doctors`, ordered by time
descending. -/
def patientAppointments (db : DB) (patient_id : Nat) : List PatientApptRow :=
  List.insertionSort timeDescP
    ((db.appointments.filter (fun a => a.patient_id == patient_id)).flatMap
      (fun a => (db.doctors.filter (fun d => d.id == a.doctor_id)).map
        (fun d => ⟨a.time, d.first_name, d.surname⟩)))

/-- Model of the doctor's appointment listing (lines 281 to 288): the inner
join of the doctor's appointments with `patients`, ordered by time
descending. -/
def doctorAppointments (db : DB) (doctor_id : Nat) : List DoctorApptRow :=
  List.insertionSort timeDescD
    ((db.appointments.filter (fun a => a.doctor_id == doctor_id)).flatMap
      (fun a => (db.patients.filter (fun p => p.id == a.patient_id)).map
        (fun p => ⟨a.id, p.id, p.full_name, a.time⟩)))

/-- Outcome of a prescribe attempt in `doctor_dashboard` (line 300). -/
inductive PrescribeResult where
  | ok
  | missingMedication
deriving Repr, DecidableEq

/-- Model of the prescribe action of `doctor_dashboard` (lines 300 to 314):
require a non-blank medication, then insert a prescription for the
appointment's patient and the logged-in doctor with `prescribed_on` today and
`refill_due` thirty days later. -/
def prescribe (db : DB) (doctor_id patient_id : Nat) (medication : String) (today : Nat) :
    DB × PrescribeResult :=
  if (pyStrip medication) = "" then (db, .missingMedication)
  else
    ({ db with
        prescriptions := db.prescriptions ++
          [⟨db.nextPrescriptionId, patient_id, doctor_id, (pyStrip medication), today, today + 30⟩],
        nextPrescriptionId := db.nextPrescriptionId + 1 },
     .ok)

/-- The store-mutating operations the application can perform, one per
write path in the source: the two registration pages, booking from the
patient dashboard, prescribing from the doctor dashboard, and doctor
account deletion.  (The `complaints` table is created but no page writes
to it.) -/
inductive Op where
  | registerPatient (name dob id_number language password : String)
  | registerDoctor (first_name surname work practice password : String)
  | book (patient_id doctor_id time : Nat)
  | prescribeMed (doctor_id patient_id : Nat) (medication : String) (today : Nat)
  | deleteDoctorAccount (doctor_id : Nat)

/-- Effect of one operation on the store. -/
def step (db : DB) : Op → DB
  | .registerPatient name dob idn lang pw => (patient_register db name dob idn lang pw).1
  | .registerDoctor fn sn wk pr pw => (doctor_register db fn sn wk pr pw).1
  | .book pid did t => bookAppointment db pid did t
  | .prescribeMed did pid med today => (prescribe db did pid med today).1
  | .deleteDoctorAccount did => delete_doctor db did

/-- Run a sequence of operations; states of the form `applyOps emptyDB ops`
are exactly the reachable states of the store. -/
def applyOps (db : DB) (ops : List Op) : DB := ops.foldl step db

/-- Decimal rendering of a natural number, the model of Python `str(doc[0])`
inside the f-string of line 230. -/
def natRepr (n : Nat) : List Char :=
  if n < 10 then [Char.ofNat (48 + n)]
  else natRepr (n / 10) ++ [Char.ofNat (48 + n % 10)]
termination_by n
decreasing_by exact Nat.div_lt_self (by omega) (by omega)

/-- Value of a decimal digit string, the model of Python `int(...)` on the
digit strings produced by the selector (line 237). -/
def parseIntDigits (cs : List Char) : Nat :=
  cs.foldl (fun acc ch => acc * 10 + (ch.toNat - 48)) 0

/-- Whether `sep` occurs at the front of the second list. -/
def startsWithSep : List Char → List Char → Bool
  | [], _ => true
  | _ :: _, [] => false
  | a :: as, b :: bs => a == b && startsWithSep as bs

/-- Everything before the first occurrence of `sep` (the whole list when
`sep` does not occur): the model of Python `s.split(sep)[0]` (line 237). -/
def splitFirst (sep : List Char) : List Char → List Char
  | [] => []
  | c :: cs => if startsWithSep sep (c :: cs) then [] else c :: splitFirst sep cs

/-- The selector label of line 230:
`f"{doc[0]} - Dr. {doc[1]} {doc[2]} ({doc[3]})"`. -/
def doctorLabel (d : Doctor) : List Char :=
  natRepr d.id ++ (" - Dr. ").toList ++ d.first_name.toList ++ [' '] ++
    d.surname.toList ++ (" (").toList ++ d.place_of_work.toList ++ [')']

/-- The id recovered from a selector label on line 237:
`int(doctor.split(" - ")[0])`. -/
def selectedDoctorId (label : List Char) : Nat :=
  parseIntDigits (splitFirst ([' ', '-', ' ']) label)

/-- Number of `Scheduled` appointments of a given doctor at a given time. -/
def scheduledCount (db : DB) (doctor_id time : Nat) : Nat :=
  (db.appointments.filter
    (fun a => a.doctor_id == doctor_id && a.time == time && a.status == "Scheduled")).length

/-- A concrete run: register a patient and a doctor, then book the same
doctor twice at the same time (09:00, i.e. minute 540). -/
def dbDouble : DB :=
  applyOps emptyDB
    [Op.registerPatient "Ann" "2000-01-01" "8001" "English" "pw1!aa",
     Op.registerDoctor "Bob" "Dube" "Clinic" "1234567890123" "pw1!aa",
     Op.book 1 1 540, Op.book 1 1 540]

/-- A concrete run: register a patient and a doctor and book 09:00 once. -/
def dbOneBooking : DB :=
  applyOps emptyDB
    [Op.registerPatient "Ann" "2000-01-01" "8001" "English" "pw1!aa",
     Op.registerDoctor "Bob" "Dube" "Clinic" "1234567890123" "pw1!aa",
     Op.book 1 1 540]

/-- A concrete run: two bookings of the same doctor at times 100 and 200. -/
def dbTwoTimes : DB :=
  applyOps emptyDB
    [Op.registerPatient "Ann" "2000-01-01" "8001" "English" "pw1!aa",
     Op.registerDoctor "Bob" "Dube" "Clinic" "1234567890123" "pw1!aa",
     Op.book 1 1 100, Op.book 1 1 200]

/-- A concrete run: book an appointment with doctor 1, then delete the
doctor's account from the doctor dashboard. -/
def dbDeleted : DB :=
  applyOps emptyDB
    [Op.registerPatient "Ann" "2000-01-01" "8001" "English" "pw1!aa",
     Op.registerDoctor "Bob" "Dube" "Clinic" "1234567890123" "pw1!aa",
     Op.book 1 1 540, Op.deleteDoctorAccount 1]

/-- A concrete store holding one registered patient with ID number 8001. -/
def dbOnePatient : DB :=
  (patient_register emptyDB "Ann" "2000-01-01" "8001" "English" "pw1!aa").1

/-- Every operation leaves the existing `appointments` rows in place:
registration, prescribing and doctor deletion do not touch the table, and
booking appends one row at the end. -/
theorem step_appointments_extend (db : DB) (op : Op) :
    ∃ tail, (step db op).appointments = db.appointments ++ tail := by
  cases op with
  | registerPatient name dob idn lang pw =>
      refine ⟨[], ?_⟩
      rw [List.append_nil]
      simp only [step]
      unfold patient_register
      repeat' split
      all_goals rfl
  | registerDoctor fn sn wk pr pw =>
      refine ⟨[], ?_⟩
      rw [List.append_nil]
      simp only [step]
      unfold doctor_register
      repeat' split
      all_goals rfl
  | book pid did t =>
      exact ⟨[⟨db.nextAppointmentId, pid, did, t, "Scheduled"⟩], rfl⟩
  | prescribeMed did pid med today =>
      refine ⟨[], ?_⟩
      rw [List.append_nil]
      simp only [step]
      unfold prescribe
      repeat' split
      all_goals rfl
  | deleteDoctorAccount did =>
      exact ⟨[], by simp [step, delete_doctor]⟩

/-- C6: appointment rows are never physically deleted and never mutated:
after any sequence of operations the appointments table is the original
table with new rows appended after it, so every row once created remains
present with all of its fields (patient, practitioner, slot, and even
status) unchanged. -/
theorem c6_appointments_append_only (db : DB) (ops : List Op) :
    ∃ tail, (applyOps db ops).appointments = db.appointments ++ tail := by
  induction ops generalizing db with
  | nil => exact ⟨[], by simp [applyOps]⟩
  | cons op rest ih =>
      obtain ⟨t1, h1⟩ := step_appointments_extend db op
      obtain ⟨t2, h2⟩ := ih (step db op)
      refine ⟨t1 ++ t2, ?_⟩
      have hfold : applyOps db (op :: rest) = applyOps (step db op) rest := by
        simp [applyOps]
      rw [hfold, h2, h1, List.append_assoc]

/-- C1 fails on the code: in the reachable store `dbDouble` (patient and
doctor registered, the same 09:00 slot booked twice through the dashboard)
there are two distinct appointments of the same doctor at the same time,
both with status `Scheduled`. -/
theorem c1_counterexample :
    ∃ a ∈ dbDouble.appointments, ∃ b ∈ dbDouble.appointments,
      a.id ≠ b.id ∧ a.doctor_id = b.doctor_id ∧ a.time = b.time ∧
      a.status = "Scheduled" ∧ b.status = "Scheduled" := by
  decide

/-- C1 amended: the booking insert performs no overlap check whatsoever, so
booking the same doctor at the same time twice always adds two further
`Scheduled` appointments in that slot, no matter what the store already
contains. -/
theorem c1_no_overlap_invariant (db : DB) (pid did t : Nat) :
    scheduledCount (bookAppointment (bookAppointment db pid did t) pid did t) did t =
      scheduledCount db did t + 2 := by
  simp [scheduledCount, bookAppointment, List.filter_append]

/-- C2 fails on the code: booking the occupied 09:00 slot a second time is
not rejected; the insert succeeds and a second appointment row appears
(and a third booking at 09:30 also just appends). -/
theorem c2_counterexample :
    (applyOps dbOneBooking [Op.book 1 1 540]).appointments.length = 2 ∧
    (applyOps dbOneBooking [Op.book 1 1 540, Op.book 1 1 570]).appointments.length = 3 := by
  decide

/-- C2 amended: when the requested slot is already occupied by a `Scheduled`
appointment of the same doctor, the booking is not rejected — the row count
for that slot grows again — and booking the next half-hour slot likewise
succeeds. -/
theorem c2_conflict_not_rejected (db : DB) (pid pid2 did t : Nat)
    (hocc : 1 ≤ scheduledCount db did t) :
    2 ≤ scheduledCount (bookAppointment db pid did t) did t ∧
    scheduledCount (bookAppointment (bookAppointment db pid did t) pid2 did (t + 30))
        did (t + 30) =
      scheduledCount db did (t + 30) + 1 := by
  constructor
  · have h : scheduledCount (bookAppointment db pid did t) did t =
        scheduledCount db did t + 1 := by
      simp [scheduledCount, bookAppointment, List.filter_append]
    omega
  · simp only [scheduledCount, bookAppointment, List.filter_append, List.length_append]
    simp [show ¬ (t = t + 30) by omega]

/-- C2 witness: in the concrete store with 09:00 already booked, the slot is
occupied, a second 09:00 booking is inserted anyway, and a 09:30 booking
succeeds. -/
theorem c2_conflict_not_rejected_witness :
    2 ≤ scheduledCount (bookAppointment dbOneBooking 1 1 540) 1 540 ∧
    scheduledCount (bookAppointment (bookAppointment dbOneBooking 1 1 540) 1 1 (540 + 30))
        1 (540 + 30) =
      scheduledCount dbOneBooking 1 (540 + 30) + 1 :=
  c2_conflict_not_rejected dbOneBooking 1 1 1 540 (by decide)

/-- C3 fails on the code: a booking at 23:45 (minute 1425, far outside any
working hours) is not rejected with any error; the appointment row is
created with status `Scheduled`. -/
theorem c3_counterexample :
    (bookAppointment emptyDB 1 1 1425).appointments =
      [⟨1, 1, 1, 1425, "Scheduled"⟩] := by
  decide

/-- C3 amended: the booking insert validates nothing about the slot — for
any store and any time of day whatsoever (including 23:45) it creates a
`Scheduled` appointment for the requested doctor; no `InvalidSlotError`
exists anywhere in the code. -/
theorem c3_no_slot_validation (db : DB) (pid did t : Nat) :
    ∃ a ∈ (bookAppointment db pid did t).appointments,
      a.patient_id = pid ∧ a.doctor_id = did ∧ a.time = t ∧ a.status = "Scheduled" := by
  refine ⟨⟨db.nextAppointmentId, pid, did, t, "Scheduled"⟩, ?_, rfl, rfl, rfl, rfl⟩
  simp [bookAppointment]

/-- C5 fails on the code: in the reachable store `dbDeleted` (doctor
registered, appointment booked with them, account then deleted from the
doctor dashboard) there is an appointment whose practitioner reference
resolves to no existing doctor row. -/
theorem c5_counterexample :
    ∃ a ∈ dbDeleted.appointments, ∀ d ∈ dbDeleted.doctors, d.id ≠ a.doctor_id := by
  decide

/-- C5 amended: the account deletion physically removes the doctor row,
unconditionally — it never checks the appointments table, which it leaves
untouched, so appointments referencing the deleted doctor survive with
dangling references. -/
theorem c5_delete_is_physical (db : DB) (did : Nat) :
    (delete_doctor db did).appointments = db.appointments ∧
    (delete_doctor db did).prescriptions = db.prescriptions ∧
    ∀ d ∈ (delete_doctor db did).doctors, d.id ≠ did := by
  refine ⟨rfl, rfl, ?_⟩
  intro d hd
  simp [delete_doctor, List.mem_filter] at hd
  exact hd.2

/-- C4 fails on the code: both listings use `ORDER BY a.time DESC`, so in the
concrete store `dbTwoTimes` (appointments at times 100 and 200) the
patient's listing is not ascending by slot start. -/
theorem c4_counterexample :
    ¬ List.Sorted (fun a b : PatientApptRow => a.time ≤ b.time)
      (patientAppointments dbTwoTimes 1) := by
  decide

/-- C4 amended: both listings are pure projections of the store (they are
functions of it) returning rows sorted descending, not ascending, by slot
start time; each listing returns exactly the rows of the patient's
(respectively doctor's) appointments that still join to an existing doctor
(respectively patient) row. -/
theorem c4_listings_descending (db : DB) (pid did : Nat) :
    List.Sorted timeDescP (patientAppointments db pid) ∧
    List.Sorted timeDescD (doctorAppointments db did) ∧
    (∀ r, r ∈ patientAppointments db pid ↔
      ∃ a ∈ db.appointments, a.patient_id = pid ∧
        ∃ d ∈ db.doctors, d.id = a.doctor_id ∧
          r = ⟨a.time, d.first_name, d.surname⟩) ∧
    (∀ r, r ∈ doctorAppointments db did ↔
      ∃ a ∈ db.appointments, a.doctor_id = did ∧
        ∃ p ∈ db.patients, p.id = a.patient_id ∧
          r = ⟨a.id, p.id, p.full_name, a.time⟩) := by
  refine ⟨List.sorted_insertionSort _ _, List.sorted_insertionSort _ _, ?_, ?_⟩ <;>
    intro r <;>
    simp only [patientAppointments, doctorAppointments, List.mem_insertionSort,
      List.mem_flatMap, List.mem_filter, List.mem_map, beq_iff_eq] <;>
    constructor
  · rintro ⟨a, ⟨ha, hpa⟩, d, ⟨hd, hda⟩, hrEq⟩
    exact ⟨a, ha, hpa, d, hd, hda, hrEq.symm⟩
  · rintro ⟨a, ha, hpa, d, hd, hda, hrEq⟩
    exact ⟨a, ⟨ha, hpa⟩, d, ⟨hd, hda⟩, hrEq.symm⟩
  · rintro ⟨a, ⟨ha, hda⟩, p, ⟨hp, hpa⟩, hrEq⟩
    exact ⟨a, ha, hda, p, hp, hpa, hrEq.symm⟩
  · rintro ⟨a, ha, hda, p, hp, hpa, hrEq⟩
    exact ⟨a, ⟨ha, hda⟩, p, ⟨hp, hpa⟩, hrEq.symm⟩

/-- C8: registering with an ID number already present raises the UNIQUE
`IntegrityError` and leaves the store untouched, while registering with a
fresh ID number and valid fields appends exactly one patient row. -/
theorem c8_patient_id_number_unique (db : DB)
    (name dob idn lang pw name2 dob2 idn2 lang2 pw2 : String)
    (hname : ¬ pyStrip name = "") (hidn : ¬ pyStrip idn = "") (hpw : ¬ pyStrip pw = "")
    (hpol : password_policy pw = true)
    (hdup : db.patients.any (fun p => p.id_number == pyStrip idn) = true)
    (hname2 : ¬ pyStrip name2 = "") (hidn2 : ¬ pyStrip idn2 = "")
    (hpw2 : ¬ pyStrip pw2 = "") (hpol2 : password_policy pw2 = true)
    (hfresh : db.patients.any (fun p => p.id_number == pyStrip idn2) = false) :
    patient_register db name dob idn lang pw = (db, RegResult.integrityError) ∧
    (patient_register db name2 dob2 idn2 lang2 pw2).2 = RegResult.ok ∧
    (patient_register db name2 dob2 idn2 lang2 pw2).1.patients =
      db.patients ++
        [⟨db.nextPatientId, pyStrip name2, dob2, pyStrip idn2, lang2, hash_password pw2⟩] := by
  unfold patient_register
  simp [hname, hidn, hpw, hpol, hdup, hname2, hidn2, hpw2, hpol2, hfresh]

/-- C8 witness: with patient 8001 already registered, re-registering ID
number 8001 fails with the integrity error and changes nothing, while
registering the fresh ID number 9002 appends one patient row. -/
theorem c8_patient_id_number_unique_witness :
    patient_register dbOnePatient "Eve" "2001-02-03" "8001" "Sepedi" "pw2!bb" =
      (dbOnePatient, RegResult.integrityError) ∧
    (patient_register dbOnePatient "Eve" "2001-02-03" "9002" "Sepedi" "pw2!bb").2 =
      RegResult.ok ∧
    (patient_register dbOnePatient "Eve" "2001-02-03" "9002" "Sepedi" "pw2!bb").1.patients =
      dbOnePatient.patients ++
        [⟨dbOnePatient.nextPatientId, pyStrip "Eve", "2001-02-03", pyStrip "9002", "Sepedi",
          hash_password "pw2!bb"⟩] :=
  c8_patient_id_number_unique dbOnePatient "Eve" "2001-02-03" "8001" "Sepedi" "pw2!bb"
    "Eve" "2001-02-03" "9002" "Sepedi" "pw2!bb"
    (by decide) (by decide) (by decide) (by decide) (by decide)
    (by decide) (by decide) (by decide) (by decide) (by decide)

/-- C7: a prescription issued from a row of the doctor's appointment listing
is created with `refill_due` exactly thirty days after `prescribed_on`, and
it references the patient and doctor of an appointment in the store held by
that doctor with that patient. -/
theorem c7_prescription_fields (db : DB) (did today : Nat) (r : DoctorApptRow) (med : String)
    (hr : r ∈ doctorAppointments db did) (hmed : ¬ pyStrip med = "") :
    (prescribe db did r.patient_id med today).2 = PrescribeResult.ok ∧
    (prescribe db did r.patient_id med today).1.prescriptions =
      db.prescriptions ++
        [⟨db.nextPrescriptionId, r.patient_id, did, pyStrip med, today, today + 30⟩] ∧
    ∃ a ∈ db.appointments, a.id = r.appointment_id ∧ a.patient_id = r.patient_id ∧
      a.doctor_id = did := by
  refine ⟨by simp [prescribe, hmed], by simp [prescribe, hmed], ?_⟩
  simp only [doctorAppointments, List.mem_insertionSort, List.mem_flatMap,
    List.mem_filter, List.mem_map, beq_iff_eq] at hr
  obtain ⟨a, ⟨ha, hda⟩, p, ⟨hp, hpa⟩, hrEq⟩ := hr
  subst hrEq
  exact ⟨a, ha, rfl, hpa.symm, hda⟩

/-- C7 witness: in the concrete store with one 09:00 appointment, the
doctor's listing contains its row, and prescribing from it creates the
expected prescription with refill due thirty days later, referencing the
appointment's patient and doctor. -/
theorem c7_prescription_fields_witness :
    (prescribe dbOneBooking 1 (1 : Nat) "Amoxil" 20000).2 = PrescribeResult.ok ∧
    (prescribe dbOneBooking 1 (1 : Nat) "Amoxil" 20000).1.prescriptions =
      dbOneBooking.prescriptions ++
        [⟨dbOneBooking.nextPrescriptionId, 1, 1, pyStrip "Amoxil", 20000, 20000 + 30⟩] ∧
    ∃ a ∈ dbOneBooking.appointments, a.id = 1 ∧ a.patient_id = 1 ∧ a.doctor_id = 1 :=
  c7_prescription_fields dbOneBooking 1 20000 ⟨1, 1, pyStrip "Ann", 540⟩ "Amoxil"
    (by decide) (by decide)

/-- Auxiliary: the value of `Char.ofNat` at a valid code point. -/
theorem toNat_ofNat_valid (m : Nat) (h : m.isValidChar) : (Char.ofNat m).toNat = m := by
  simp [Char.ofNat, h, Char.ofNatAux, Char.toNat, UInt32.toNat, BitVec.toNat_ofNatLt]

/-- Every character of the decimal rendering is an ASCII digit. -/
theorem natRepr_digits (n : Nat) : ∀ c ∈ natRepr n, 48 ≤ c.toNat ∧ c.toNat ≤ 57 := by
  induction n using Nat.strong_induction_on with
  | _ n ih =>
    intro c hc
    rw [natRepr] at hc
    split at hc
    · simp only [List.mem_singleton] at hc
      subst hc
      rw [toNat_ofNat_valid (48 + n) (Or.inl (by omega))]
      omega
    · rcases List.mem_append.mp hc with h | h
      · exact ih (n / 10) (Nat.div_lt_self (by omega) (by omega)) c h
      · simp only [List.mem_singleton] at h
        subst h
        rw [toNat_ofNat_valid (48 + n % 10) (Or.inl (by omega))]
        omega

/-- Parsing after appending one digit character multiplies by ten and adds
the digit value. -/
theorem parseIntDigits_append_digit (xs : List Char) (c : Char) :
    parseIntDigits (xs ++ [c]) = parseIntDigits xs * 10 + (c.toNat - 48) := by
  simp [parseIntDigits, List.foldl_append]

/-- Parsing inverts the decimal rendering. -/
theorem parseIntDigits_natRepr (n : Nat) : parseIntDigits (natRepr n) = n := by
  induction n using Nat.strong_induction_on with
  | _ n ih =>
    rw [natRepr]
    split
    · simp only [parseIntDigits, List.foldl_cons, List.foldl_nil]
      rw [toNat_ofNat_valid (48 + n) (Or.inl (by omega))]
      omega
    · rw [parseIntDigits_append_digit,
        ih (n / 10) (Nat.div_lt_self (by omega) (by omega)),
        toNat_ofNat_valid (48 + n % 10) (Or.inl (by omega))]
      omega

/-- Splitting on `" - "` right after a block without spaces returns exactly
that block. -/
theorem splitFirst_no_space_block (xs ys : List Char) (h : ∀ c ∈ xs, c.toNat ≠ 32) :
    splitFirst [' ', '-', ' '] (xs ++ ' ' :: '-' :: ' ' :: ys) = xs := by
  induction xs with
  | nil => simp [splitFirst, startsWithSep]
  | cons c cs ih =>
      have hc : c.toNat ≠ 32 := h c (List.mem_cons_self c cs)
      have hcs : ∀ x ∈ cs, x.toNat ≠ 32 := fun x hx => h x (List.mem_cons_of_mem c hx)
      have hne : (' ' == c) = false := by
        rw [beq_eq_false_iff_ne]
        intro heq
        subst heq
        exact hc (by decide)
      simp only [List.cons_append, splitFirst, startsWithSep, hne, Bool.false_and,
        Bool.if_false_left, Bool.and_self, if_neg (Bool.false_ne_true)]
      rw [List.append_eq, ih hcs]

/-- C9: formatting a doctor row as its selector label and parsing it back
with `split(" - ")[0]` followed by integer conversion recovers exactly the
doctor's id, for every doctor record, so every booking made through the
selector references the selected doctor. -/
theorem c9_selector_roundtrip (d : Doctor) : selectedDoctorId (doctorLabel d) = d.id := by
  unfold selectedDoctorId doctorLabel
  have hsep : (" - Dr. ").toList = ' ' :: '-' :: ' ' :: ("Dr. ").toList := by decide
  have hdig : ∀ c ∈ natRepr d.id, c.toNat ≠ 32 := by
    intro c hc
    have := natRepr_digits d.id c hc
    omega
  rw [hsep]
  simp only [List.append_assoc, List.cons_append, List.nil_append]
  rw [splitFirst_no_space_block _ _ hdig, parseIntDigits_natRepr]

/-- Auxiliary: `find?` skips a leading block on which the predicate fails. -/
theorem find?_append_of_all_false {α : Type} (p : α → Bool) (l1 l2 : List α)
    (h : ∀ x ∈ l1, p x = false) : (l1 ++ l2).find? p = l2.find? p := by
  induction l1 with
  | nil => rfl
  | cons a as ih =>
      have ha : p a = false := h a (List.mem_cons_self a as)
      have has : ∀ x ∈ as, p x = false := fun x hx => h x (List.mem_cons_of_mem a hx)
      simp [List.find?_cons, ha, ih has]

/-- C10: after a successful registration with ID number `idn` and password
`pw`, logging in with `idn` and `pw` succeeds and yields the new patient's
session data, while logging in with any password whose SHA-256 digest
differs from that of `pw` is rejected. -/
theorem c10_register_login_roundtrip (db : DB) (name dob idn lang pw bad : String)
    (hreg : (patient_register db name dob idn lang pw).2 = RegResult.ok)
    (hbad : hash_password bad ≠ hash_password pw) :
    patient_login (patient_register db name dob idn lang pw).1 idn pw =
      some (db.nextPatientId, pyStrip name) ∧
    patient_login (patient_register db name dob idn lang pw).1 idn bad = none := by
  by_cases h1 : pyStrip name = "" ∨ pyStrip idn = "" ∨ pyStrip pw = ""
  · exfalso
    simp [patient_register, h1] at hreg
  by_cases h2 : password_policy pw = true
  case neg =>
    exfalso
    simp [patient_register, h1, h2] at hreg
  by_cases h3 : db.patients.any (fun p => p.id_number == pyStrip idn) = true
  · exfalso
    simp [patient_register, h1, h2, h3] at hreg
  push_neg at h1
  obtain ⟨hname, hidn, hpw⟩ := h1
  have h3f : db.patients.any (fun p => p.id_number == pyStrip idn) = false :=
    Bool.not_eq_true _ |>.mp h3
  have hall : ∀ x ∈ db.patients, (x.id_number == pyStrip idn) = false := by
    simpa [List.any_eq_false] using h3f
  have hdb1 : (patient_register db name dob idn lang pw).1 =
      { db with
          patients := db.patients ++
            [⟨db.nextPatientId, pyStrip name, dob, pyStrip idn, lang, hash_password pw⟩],
          nextPatientId := db.nextPatientId + 1 } := by
    simp [patient_register, hname, hidn, hpw, h2, h3f]
  have hfind : (db.patients ++
      [(⟨db.nextPatientId, pyStrip name, dob, pyStrip idn, lang, hash_password pw⟩ : Patient)]).find?
        (fun p => p.id_number == pyStrip idn) =
      some ⟨db.nextPatientId, pyStrip name, dob, pyStrip idn, lang, hash_password pw⟩ := by
    rw [find?_append_of_all_false _ _ _ hall]
    simp [List.find?_cons]
  constructor
  · simp [patient_login, hidn, hpw, hdb1, hfind, check_password]
  · by_cases hbe : pyStrip bad = ""
    · simp [patient_login, hbe]
    · simp [patient_login, hidn, hbe, hdb1, hfind, check_password,
        beq_eq_false_iff_ne.mpr hbad]

set_option maxRecDepth 10000 in
/-- C10 witness: registering patient 9001 with password `pass1!` succeeds,
the hash of `pass2!` differs, the login with `pass1!` succeeds and the login
with `pass2!` is rejected. -/
theorem c10_register_login_roundtrip_witness :
    patient_login (patient_register emptyDB "Al" "2000-01-01" "9001" "English" "pass1!").1
        "9001" "pass1!" = some (emptyDB.nextPatientId, pyStrip "Al") ∧
    patient_login (patient_register emptyDB "Al" "2000-01-01" "9001" "English" "pass1!").1
        "9001" "pass2!" = none :=
  c10_register_login_roundtrip emptyDB "Al" "2000-01-01" "9001" "English" "pass1!" "pass2!"
    (by decide) (by decide)
